import Mathlib

/-!
Shallow embedding of `country_information.py` (Streamlit country statistics
explorer).  Pure data reshaping is modelled by Lean functions; the external
collaborators (the pycountry lookup table, the two HTTP APIs, the local
fun-facts file) are passed in as explicit function/value parameters; Python
exceptions are modelled by `Except`/`Option` results; calls to `st.error`
are modelled by a list of emitted messages.
-/

namespace CountryInfo

/-- Python exceptions that the source can raise: `requests.exceptions.RequestException`
(raised by `requests.get`/`raise_for_status`), `IndexError`/`KeyError`
(raised by subscripts such as `data.get("capital", ["N/A"])[0]` and
`data["latlng"]`), and `io.UnsupportedOperation` (raised by `json.load` on a
file handle opened in write mode). -/
inductive PyExc
  | requestException
  | indexOrKeyError
  | unsupportedOperation
deriving DecidableEq, Repr

/-- Messages shown via `st.error` in the source: the
`Country '…' not found.` message, the `Error fetching data from API: …`
message (from the `requests.exceptions.RequestException` handler), and the
`An unexpected error occurred: …` message (from the catch-all handler). -/
inductive ErrMsg
  | notFound (name : String)
  | apiError
  | unexpectedError
deriving DecidableEq, Repr

/-- The JSON object `data = response.json()[0]` of the facts API, restricted
to the fields the source reads.  `Option` models key absence (Python
`dict.get` default); `currencies`/`languages` are the key list / value list
of the corresponding JSON mappings, with absence and the empty mapping
identified (both are falsy, and the source only tests truthiness after a
`.get(…, \x7b\x7d)` default); numbers are carried as `Int`. -/
structure FactsResponse where
  capital : Option (List String)
  population : Option Int
  area : Option Int
  currencies : List String
  languages : List String
  timezones : Option (List String)
  borders : List String
  flagPng : Option String
  latlng : Option (List Int)
deriving DecidableEq, Repr

/-- The `country_data` dict built by `fetch_country_data` (lines 42-53 of the
source).  `Population`/`Area` are `Option Int`: `none` models the string
placeholder `"N/A"` that the source stores when the API omits the field. -/
structure CountryData where
  Capital : String
  Population : Option Int
  Area : Option Int
  Currency : String
  Language : String
  TimeZones : String
  NeighboringCountries : List String
  Flag : String
  Latitude : Int
  Longitude : Int
deriving DecidableEq, Repr

/-- Python `", ".join(l)`. -/
def joinComma : List String → String
  | [] => ""
  | [a] => a
  | a :: b :: rest => a ++ ", " ++ joinComma (b :: rest)

/-- The field-extraction block of `fetch_country_data` (source lines 22-53),
given the back-resolver `toName` modelling
`pycountry.countries.get(alpha_3=border_code)` (`none` covers both a `None`
result and a raised exception, which the inner `try`/`except: pass` also
swallows).  An `IndexError`/`KeyError` escapes this block (it is caught
further out by the catch-all handler):
`data.get("capital", ["N/A"])[0]` raises on an empty list, and
`data["latlng"][0]` / `[1]` raise when `latlng` is absent or too short. -/
def extractRecord (toName : String → Option String) (d : FactsResponse) :
    Except PyExc CountryData :=
  match d.capital.getD ["N/A"] with
  | [] => Except.error PyExc.indexOrKeyError
  | c :: _ =>
    match d.latlng with
    | none => Except.error PyExc.indexOrKeyError
    | some ll =>
      match ll[0]?, ll[1]? with
      | some lat, some lon =>
        Except.ok (CountryData.mk c d.population d.area
          (if d.currencies = [] then "N/A" else joinComma d.currencies)
          (if d.languages = [] then "N/A" else joinComma d.languages)
          (joinComma (d.timezones.getD ["N/A"]))
          (d.borders.filterMap toName)
          (d.flagPng.getD "")
          lat lon)
      | _, _ => Except.error PyExc.indexOrKeyError

/-- The observable outcome of one `fetch_country_data` call: the returned
value (`none` = Python `None`), the `st.error` messages emitted, and the
list of country codes for which a facts-API request was issued. -/
structure FetchResult where
  data : Option CountryData
  msgs : List ErrMsg
  requests : List String
deriving DecidableEq, Repr

/-- `fetch_country_data` (source lines 10-63).  `toCode` models
`pycountry.countries.get(name=…).alpha_3`; `api` models
`requests.get` + `raise_for_status` + `response.json()[0]`, with
`Except.error` covering a transport error / bad status
(`requestException`) or an unexpected response shape (any other
exception).  The two `except` clauses map exceptions to `st.error`
messages and a `None` return. -/
def fetch_country_data (toCode toName : String → Option String)
    (api : String → Except PyExc FactsResponse) (name : String) : FetchResult :=
  match toCode name with
  | none => FetchResult.mk none [ErrMsg.notFound name] []
  | some code =>
    match api code with
    | Except.error PyExc.requestException =>
        FetchResult.mk none [ErrMsg.apiError] [code]
    | Except.error _ => FetchResult.mk none [ErrMsg.unexpectedError] [code]
    | Except.ok d =>
      match extractRecord toName d with
      | Except.error _ => FetchResult.mk none [ErrMsg.unexpectedError] [code]
      | Except.ok rec => FetchResult.mk (some rec) [] [code]

/-- One row of the World Bank indicator response
(`response.json()[1]`): a `date` and a possibly-null `value`. -/
structure WBRow where
  date : Int
  value : Option Int
deriving DecidableEq, Repr

/-- `fetch_historical_data` (source lines 66-81).  `api` models the whole
`requests.get` + `raise_for_status` + `response.json()[1]` + `DataFrame`
pipeline, yielding the row list or an exception.  The returned frame is the
row list after `df[df.value.notna()]`; the second component is the
`st.error` messages. -/
def fetch_historical_data
    (api : String → String → Int → Int → Except PyExc (List WBRow))
    (code indicator : String) (startYear endYear : Int) :
    Option (List WBRow) × List ErrMsg :=
  match api code indicator startYear endYear with
  | Except.error PyExc.requestException => (none, [ErrMsg.apiError])
  | Except.error _ => (none, [ErrMsg.unexpectedError])
  | Except.ok rows => (some (rows.filter (fun r => r.value.isSome)), [])

/-- A parsed-JSON file handle: `content` is what `json.load` would parse,
`readable` whether the handle was opened readable. -/
structure FileHandle where
  content : List (String × String)
  readable : Bool
deriving DecidableEq, Repr

/-- `open(path, 'w', …)`: truncates the file and yields a write-only
handle.  `stored` is the mapping stored in the file before the call; it is
discarded by the truncation. -/
def openWriteMode (_stored : List (String × String)) : FileHandle :=
  FileHandle.mk [] false

/-- `json.load(f)`: raises `io.UnsupportedOperation` on a handle not open
for reading, otherwise yields the parsed content. -/
def json_load (h : FileHandle) : Except PyExc (List (String × String)) :=
  if h.readable then Except.ok h.content
  else Except.error PyExc.unsupportedOperation

/-- Python `dict.get(name, default)` over an association list. -/
def dictGet (facts : List (String × String)) (name default : String) : String :=
  ((facts.find? (fun p => p.1 == name)).map Prod.snd).getD default

/-- `get_fun_fact` (source lines 92-97): opens `data/fun_facts.json` in
write mode (`'w'`), calls `json.load` on the handle, then looks the country
up with the fixed fallback.  `stored` is the mapping in the file before the
call.  There is no `try`/`except` in this function, so an `Except.error`
result models an exception propagating out of it uncaught. -/
def get_fun_fact (stored : List (String × String)) (name : String) :
    Except PyExc String :=
  match json_load (openWriteMode stored) with
  | Except.error e => Except.error e
  | Except.ok facts =>
      Except.ok (dictGet facts name "No fun fact available for this country.")

/-- The loop body of `create_neighbor_population_chart` (source lines
122-134) for one neighbor name: resolve the name to a code, issue the
facts-API request, and build the `(country, population)` row with
population defaulting to `0`; `none` when the neighbor is skipped (failed
resolution, or any exception caught by the inner `except: pass`). -/
def neighborRow (toCode : String → Option String)
    (api : String → Except PyExc FactsResponse) (name : String) :
    Option (String × Int) :=
  match toCode name with
  | none => none
  | some code =>
    match api code with
    | Except.error _ => none
    | Except.ok d => some (name, d.population.getD 0)

/-- `create_neighbor_population_chart` (source lines 115-141), with the
chart identified with the table (`df`) it plots: `none` models the `None`
return (empty neighbor list, or no neighbor produced a row). -/
def create_neighbor_population_chart (toCode : String → Option String)
    (api : String → Except PyExc FactsResponse) (neighbors : List String) :
    Option (List (String × Int)) :=
  if neighbors = [] then none
  else
    let table := neighbors.filterMap (neighborRow toCode api)
    if table = [] then none else some table

/-! ### Concrete instances used by witnesses and counterexamples -/

/-- A small concrete name-to-code resolver. -/
def tcDemo : String → Option String := fun n =>
  if n = "France" then some "FRA"
  else if n = "Spain" then some "ESP"
  else if n = "Lux" then some "LUX"
  else none

/-- A small concrete code-to-name back-resolver. -/
def tnDemo : String → Option String := fun c =>
  if c = "FRA" then some "France"
  else if c = "ESP" then some "Spain"
  else none

/-- A fully populated facts-API response. -/
def respFull : FactsResponse :=
  FactsResponse.mk (some ["Paris"]) (some 68000000) (some 551695) ["EUR"]
    ["French"] (some ["UTC+01:00"]) ["ESP"] (some "flag.png") (some [46, 2])

/-- A response whose `population` and `area` keys are absent. -/
def respNoPop : FactsResponse :=
  FactsResponse.mk (some ["Paris"]) none none ["EUR"] ["French"] none []
    (some "flag.png") (some [46, 2])

/-- A response whose `borders` list repeats a code. -/
def respDupBorders : FactsResponse :=
  FactsResponse.mk (some ["LuxCity"]) (some 650000) none ["EUR"] ["French"]
    none ["FRA", "FRA"] none (some [49, 6])

/-- A response whose `latlng` key is absent. -/
def respNoLatlng : FactsResponse :=
  FactsResponse.mk (some ["Paris"]) (some 68000000) none ["EUR"] ["French"]
    none [] none none

/-- A response whose `capital` key holds an empty list. -/
def respEmptyCapital : FactsResponse :=
  FactsResponse.mk (some []) (some 68000000) none ["EUR"] ["French"] none []
    none (some [46, 2])

/-- A concrete facts API serving `respFull` for `FRA`. -/
def apFull : String → Except PyExc FactsResponse := fun c =>
  if c = "FRA" then Except.ok respFull
  else Except.error PyExc.requestException

/-- A concrete facts API serving `respNoPop` for `FRA`. -/
def apNoPop : String → Except PyExc FactsResponse := fun c =>
  if c = "FRA" then Except.ok respNoPop
  else Except.error PyExc.requestException

/-- A concrete facts API serving `respDupBorders` for `LUX`. -/
def apDupBorders : String → Except PyExc FactsResponse := fun c =>
  if c = "LUX" then Except.ok respDupBorders
  else Except.error PyExc.requestException

/-- A concrete facts API serving `respNoLatlng` for `FRA`. -/
def apNoLatlng : String → Except PyExc FactsResponse := fun c =>
  if c = "FRA" then Except.ok respNoLatlng
  else Except.error PyExc.requestException

/-- A concrete facts API serving `respEmptyCapital` for `FRA`. -/
def apEmptyCapital : String → Except PyExc FactsResponse := fun c =>
  if c = "FRA" then Except.ok respEmptyCapital
  else Except.error PyExc.requestException

/-- The record produced from `respNoPop`: population and area hold the
`"N/A"` placeholder (modelled `none`). -/
def recNoPop : CountryData :=
  CountryData.mk "Paris" none none "EUR" "French" "N/A" [] "flag.png" 46 2

/-- The record produced from `respDupBorders`: the neighbor list repeats
`"France"`. -/
def recDupBorders : CountryData :=
  CountryData.mk "LuxCity" (some 650000) none "EUR" "French" "N/A"
    ["France", "France"] "" 49 6

/-- The record produced from `respFull`. -/
def recFull : CountryData :=
  CountryData.mk "Paris" (some 68000000) (some 551695) "EUR" "French"
    "UTC+01:00" ["Spain"] "flag.png" 46 2

/-- World Bank rows for 2000-2005 with a null value at 2003. -/
def rows2000 : List WBRow :=
  [WBRow.mk 2000 (some 101), WBRow.mk 2001 (some 102), WBRow.mk 2002 (some 103),
   WBRow.mk 2003 none, WBRow.mk 2004 (some 105), WBRow.mk 2005 (some 106)]

/-- A concrete indicators API serving `rows2000` for `USA`/`SP.POP.TOTL`. -/
def apWB : String → String → Int → Int → Except PyExc (List WBRow) :=
  fun c i _ _ =>
    if c = "USA" ∧ i = "SP.POP.TOTL" then Except.ok rows2000
    else Except.error PyExc.requestException

/-- `rows2000` after the null-value filter. -/
def rows2000kept : List WBRow :=
  [WBRow.mk 2000 (some 101), WBRow.mk 2001 (some 102), WBRow.mk 2002 (some 103),
   WBRow.mk 2004 (some 105), WBRow.mk 2005 (some 106)]

/-! ### Helper lemmas -/

/-- A comma-join of a non-empty list of non-empty strings is non-empty. -/
theorem joinComma_ne_empty :
    ∀ l : List String, l ≠ [] → (∀ x ∈ l, x ≠ "") → joinComma l ≠ ""
  | [], h1, _ => absurd rfl h1
  | [a], _, h2 => by simpa [joinComma] using h2 a (by simp)
  | a :: b :: rest, _, _ => by
    intro h
    have hlen := congrArg String.length h
    rw [show joinComma (a :: b :: rest) = a ++ ", " ++ joinComma (b :: rest)
      from rfl] at hlen
    simp [String.length_append] at hlen
    have h2 : (", ").length = 2 := rfl
    omega

/-- Field characterization of a successful extraction. -/
theorem extractRecord_ok_fields (tn : String → Option String) (d : FactsResponse)
    (r : CountryData) (h : extractRecord tn d = Except.ok r) :
    (∃ cs, d.capital.getD ["N/A"] = r.Capital :: cs) ∧
    r.Population = d.population ∧ r.Area = d.area ∧
    r.Currency = (if d.currencies = [] then "N/A" else joinComma d.currencies) ∧
    r.Language = (if d.languages = [] then "N/A" else joinComma d.languages) ∧
    r.NeighboringCountries = d.borders.filterMap tn := by
  cases hcap : d.capital.getD ["N/A"] with
  | nil => simp [extractRecord, hcap] at h
  | cons c cs =>
    cases hll : d.latlng with
    | none => simp [extractRecord, hcap, hll] at h
    | some ll =>
      cases h0 : ll[0]? with
      | none => simp [extractRecord, hcap, hll, h0] at h
      | some lat =>
        cases h1 : ll[1]? with
        | none => simp [extractRecord, hcap, hll, h0, h1] at h
        | some lon =>
          simp only [extractRecord, hcap, hll, h0, h1, Except.ok.injEq] at h
          subst h
          exact ⟨⟨cs, rfl⟩, rfl, rfl, rfl, rfl, rfl⟩

/-- An absent `latlng` key makes the extraction raise. -/
theorem extractRecord_latlng_none (tn : String → Option String) (d : FactsResponse)
    (h : d.latlng = none) :
    extractRecord tn d = Except.error PyExc.indexOrKeyError := by
  cases hcap : d.capital.getD ["N/A"] <;> simp [extractRecord, hcap, h]

/-- A present-but-empty `capital` list makes the extraction raise. -/
theorem extractRecord_capital_empty (tn : String → Option String)
    (d : FactsResponse) (h : d.capital = some []) :
    extractRecord tn d = Except.error PyExc.indexOrKeyError := by
  simp [extractRecord, h]

/-- With `capital` absent and a usable `latlng`, extraction succeeds and the
capital defaults to `"N/A"`. -/
theorem extractRecord_capital_none (tn : String → Option String)
    (d : FactsResponse) (hcap : d.capital = none) (ll : List Int)
    (lat lon : Int) (hll : d.latlng = some ll) (h0 : ll[0]? = some lat)
    (h1 : ll[1]? = some lon) :
    extractRecord tn d = Except.ok (CountryData.mk "N/A" d.population d.area
      (if d.currencies = [] then "N/A" else joinComma d.currencies)
      (if d.languages = [] then "N/A" else joinComma d.languages)
      (joinComma (d.timezones.getD ["N/A"]))
      (d.borders.filterMap tn) (d.flagPng.getD "") lat lon) := by
  simp [extractRecord, hcap, hll, h0, h1]

/-- Failed name resolution short-circuits `fetch_country_data`. -/
theorem fetch_country_data_notFound (tc tn : String → Option String)
    (ap : String → Except PyExc FactsResponse) (name : String)
    (htc : tc name = none) :
    fetch_country_data tc tn ap name =
      FetchResult.mk none [ErrMsg.notFound name] [] := by
  simp [fetch_country_data, htc]

/-- With resolution and the API call fixed, the returned record is exactly a
successful extraction. -/
theorem fetch_country_data_ok_iff (tc tn : String → Option String)
    (ap : String → Except PyExc FactsResponse) (name code : String)
    (d : FactsResponse) (htc : tc name = some code)
    (hap : ap code = Except.ok d) (r : CountryData) :
    ((fetch_country_data tc tn ap name).data = some r ↔
      extractRecord tn d = Except.ok r) := by
  cases hE : extractRecord tn d with
  | error e => simp [fetch_country_data, htc, hap, hE]
  | ok rec => simp [fetch_country_data, htc, hap, hE]

/-- A raising extraction yields the catch-all error outcome. -/
theorem fetch_country_data_extract_err (tc tn : String → Option String)
    (ap : String → Except PyExc FactsResponse) (name code : String)
    (d : FactsResponse) (htc : tc name = some code)
    (hap : ap code = Except.ok d) (e : PyExc)
    (he : extractRecord tn d = Except.error e) :
    fetch_country_data tc tn ap name =
      FetchResult.mk none [ErrMsg.unexpectedError] [code] := by
  simp [fetch_country_data, htc, hap, he]

/-- A neighbor row keeps the input name as its first component. -/
theorem neighborRow_fst (tc : String → Option String)
    (ap : String → Except PyExc FactsResponse) (a : String) (p : String × Int)
    (h : neighborRow tc ap a = some p) : p.1 = a := by
  obtain ⟨p1, p2⟩ := p
  cases htc : tc a with
  | none => simp [neighborRow, htc] at h
  | some code =>
    cases hap : ap code with
    | error e => simp [neighborRow, htc, hap] at h
    | ok d =>
      simp [neighborRow, htc, hap] at h
      exact h.1.symm

/-- The names of the assembled rows form a subsequence of the input list. -/
theorem map_fst_filterMap_sublist (tc : String → Option String)
    (ap : String → Except PyExc FactsResponse) (l : List String) :
    List.Sublist ((l.filterMap (neighborRow tc ap)).map Prod.fst) l := by
  induction l with
  | nil => simp
  | cons a l ih =>
    cases h : neighborRow tc ap a with
    | none => simpa [List.filterMap_cons, h] using List.Sublist.cons a ih
    | some p =>
      have hfst := neighborRow_fst tc ap a p h
      simp only [List.filterMap_cons, h, List.map_cons, hfst]
      exact List.Sublist.cons₂ a ih

/-- A non-`None` chart result is exactly the filter-map of the loop body. -/
theorem create_chart_some (tc : String → Option String)
    (ap : String → Except PyExc FactsResponse) (neighbors : List String)
    (t : List (String × Int))
    (h : create_neighbor_population_chart tc ap neighbors = some t) :
    t = neighbors.filterMap (neighborRow tc ap) := by
  by_cases h1 : neighbors = []
  · simp [create_neighbor_population_chart, h1] at h
  · by_cases h2 : neighbors.filterMap (neighborRow tc ap) = []
    · simp [create_neighbor_population_chart, h1, h2] at h
    · simp [create_neighbor_population_chart, h1, h2] at h
      exact h.symm

/-- If every neighbor is skipped, the chart is `None`. -/
theorem create_chart_none_of_all_fail (tc : String → Option String)
    (ap : String → Except PyExc FactsResponse) (neighbors : List String)
    (h : ∀ n ∈ neighbors, neighborRow tc ap n = none) :
    create_neighbor_population_chart tc ap neighbors = none := by
  have hfm : neighbors.filterMap (neighborRow tc ap) = [] :=
    List.filterMap_eq_nil_iff.mpr h
  by_cases h1 : neighbors = [] <;>
    simp [create_neighbor_population_chart, h1, hfm]

/-! ### Claims -/

/-- C1: the claim says `get_fun_fact` returns the mapped fact for present
keys and the fixed fallback string for absent keys.  The code instead opens
the backing file in write mode, so `json.load` raises
`io.UnsupportedOperation` and nothing is ever returned: evaluating the code
at the failing input (a stored mapping containing only France, queried for
the absent key Atlantis) yields the uncaught exception, not the fallback
string. -/
theorem C1_fun_fact_lookup_raises_instead_of_fallback :
    get_fun_fact [("France", "The Louvre is the most visited museum.")]
      "Atlantis" = Except.error PyExc.unsupportedOperation := rfl

/-- C2: the claim says every fetch/derive operation converts failures into a
user-visible message and never propagates an exception.  `get_fun_fact`
violates this: it has no exception handler, and on every input the
write-mode `open` followed by `json.load` raises `io.UnsupportedOperation`,
which propagates out of the operation uncaught. -/
theorem C2_get_fun_fact_raises_uncaught (stored : List (String × String))
    (name : String) :
    get_fun_fact stored name = Except.error PyExc.unsupportedOperation := rfl

/-- C4: the rows returned by `fetch_historical_data` contain no
missing/null value, and the filtering is exhaustive: a source row is absent
from the result exactly when its value was null, and every row of the
result comes from the source. -/
theorem C4_historical_filter_exhaustive
    (api : String → String → Int → Int → Except PyExc (List WBRow))
    (code indicator : String) (startYear endYear : Int) (rows out : List WBRow)
    (hap : api code indicator startYear endYear = Except.ok rows)
    (hout : (fetch_historical_data api code indicator startYear endYear).1 =
      some out) :
    (∀ r ∈ out, r.value.isSome) ∧
    (∀ r ∈ rows, (r ∈ out ↔ r.value.isSome)) ∧
    (∀ r ∈ out, r ∈ rows) := by
  have hfe : out = rows.filter (fun r => r.value.isSome) := by
    simp [fetch_historical_data, hap] at hout
    exact hout.symm
  subst hfe
  refine ⟨?_, ?_, ?_⟩
  · intro r hr
    exact (List.mem_filter.mp hr).2
  · intro r hr
    exact ⟨fun h2 => (List.mem_filter.mp h2).2,
      fun h2 => List.mem_filter.mpr ⟨hr, h2⟩⟩
  · intro r hr
    exact (List.mem_filter.mp hr).1

/-- Witness for C4: the 2000-2005 fetch with a null value at 2003 keeps
exactly the five non-null rows. -/
theorem C4_historical_filter_exhaustive_witness :
    apWB "USA" "SP.POP.TOTL" 2000 2005 = Except.ok rows2000 ∧
    (fetch_historical_data apWB "USA" "SP.POP.TOTL" 2000 2005).1 =
      some rows2000kept ∧
    ((∀ r ∈ rows2000kept, r.value.isSome) ∧
     (∀ r ∈ rows2000, (r ∈ rows2000kept ↔ r.value.isSome)) ∧
     (∀ r ∈ rows2000kept, r ∈ rows2000)) :=
  ⟨rfl, rfl,
    C4_historical_filter_exhaustive apWB "USA" "SP.POP.TOTL" 2000 2005
      rows2000 rows2000kept rfl rfl⟩

/-- C7: an absent `latlng` field is a hard error: `fetch_country_data`
produces no record (returns `None`) and shows the catch-all error
message. -/
theorem C7_latlng_absent_is_hard_error (tc tn : String → Option String)
    (ap : String → Except PyExc FactsResponse) (name code : String)
    (d : FactsResponse) (htc : tc name = some code)
    (hap : ap code = Except.ok d) (hll : d.latlng = none) :
    (fetch_country_data tc tn ap name).data = none ∧
    (fetch_country_data tc tn ap name).msgs = [ErrMsg.unexpectedError] := by
  have he := extractRecord_latlng_none tn d hll
  rw [fetch_country_data_extract_err tc tn ap name code d htc hap _ he]
  exact ⟨rfl, rfl⟩

/-- Witness for C7 on a concrete response without `latlng`. -/
theorem C7_latlng_absent_is_hard_error_witness :
    tcDemo "France" = some "FRA" ∧
    apNoLatlng "FRA" = Except.ok respNoLatlng ∧
    respNoLatlng.latlng = none ∧
    ((fetch_country_data tcDemo tnDemo apNoLatlng "France").data = none ∧
     (fetch_country_data tcDemo tnDemo apNoLatlng "France").msgs =
       [ErrMsg.unexpectedError]) :=
  ⟨rfl, rfl, rfl,
    C7_latlng_absent_is_hard_error tcDemo tnDemo apNoLatlng "France" "FRA"
      respNoLatlng rfl rfl rfl⟩

/-- C8: an unrecognized country name yields the not-found message and
`None`, without crashing and without issuing any facts-API request (the
request log is empty). -/
theorem C8_unresolved_name_no_record_no_request (tc tn : String → Option String)
    (ap : String → Except PyExc FactsResponse) (name : String)
    (htc : tc name = none) :
    fetch_country_data tc tn ap name =
      FetchResult.mk none [ErrMsg.notFound name] [] :=
  fetch_country_data_notFound tc tn ap name htc

/-- Witness for C8 on the unresolvable name Atlantis. -/
theorem C8_unresolved_name_no_record_no_request_witness :
    tcDemo "Atlantis" = none ∧
    fetch_country_data tcDemo tnDemo apFull "Atlantis" =
      FetchResult.mk none [ErrMsg.notFound "Atlantis"] [] :=
  ⟨rfl, C8_unresolved_name_no_record_no_request tcDemo tnDemo apFull
    "Atlantis" rfl⟩

/-- C10: the neighbor-population table preserves the input order: the names
of the rows of a non-`None` table form a subsequence of the input
neighbor-name list. -/
theorem C10_neighbor_table_preserves_order (tc : String → Option String)
    (ap : String → Except PyExc FactsResponse) (neighbors : List String)
    (t : List (String × Int))
    (h : create_neighbor_population_chart tc ap neighbors = some t) :
    List.Sublist (t.map Prod.fst) neighbors := by
  rw [create_chart_some tc ap neighbors t h]
  exact map_fst_filterMap_sublist tc ap neighbors

/-- Witness for C10: with one failing and two succeeding neighbors the row
names are a subsequence of the input list. -/
theorem C10_neighbor_table_preserves_order_witness :
    create_neighbor_population_chart tcDemo apFull
      ["Atlantis", "France", "Spain"] = some [("France", 68000000)] ∧
    List.Sublist ([("France", 68000000)].map Prod.fst)
      ["Atlantis", "France", "Spain"] :=
  ⟨by decide,
    C10_neighbor_table_preserves_order tcDemo apFull
      ["Atlantis", "France", "Spain"] [("France", 68000000)] (by decide)⟩

/-- C3 counterexample: the claim says `fetch_country_data` never returns a
record in which a required field holds a placeholder for a missing
population or area.  On a response that provides capital, currency,
language and latlng but omits population and area, the code returns a
record carrying the `"N/A"` placeholder (modelled `none`) in both fields,
and the caller treats any non-`None` record as valid. -/
theorem C3_counterexample_placeholder_population :
    (fetch_country_data tcDemo tnDemo apNoPop "France").data = some recNoPop ∧
    recNoPop.Population = none ∧ recNoPop.Area = none :=
  ⟨rfl, rfl, rfl⟩

/-- C3 amended: for every resolved name whose API call succeeds and yields
a record, the capital, currency and language fields are non-empty whenever
the response provides them non-emptily; however a missing population or
area is carried into the returned record as the `"N/A"` placeholder
(modelled `none`), and such a record is still returned as valid. -/
theorem C3_amended_required_fields (tc tn : String → Option String)
    (ap : String → Except PyExc FactsResponse) (name code : String)
    (d : FactsResponse) (r : CountryData) (htc : tc name = some code)
    (hap : ap code = Except.ok d)
    (hr : (fetch_country_data tc tn ap name).data = some r) :
    (∀ c cs, d.capital = some (c :: cs) → c ≠ "" → r.Capital ≠ "") ∧
    (d.currencies ≠ [] → (∀ k ∈ d.currencies, k ≠ "") → r.Currency ≠ "") ∧
    (d.languages ≠ [] → (∀ v ∈ d.languages, v ≠ "") → r.Language ≠ "") ∧
    r.Population = d.population ∧ r.Area = d.area := by
  have hok := (fetch_country_data_ok_iff tc tn ap name code d htc hap r).mp hr
  obtain ⟨⟨cs0, hcap⟩, hpop, harea, hcur, hlang, _⟩ :=
    extractRecord_ok_fields tn d r hok
  refine ⟨?_, ?_, ?_, hpop, harea⟩
  · intro c cs hc hne
    rw [hc] at hcap
    simp only [Option.getD_some, List.cons.injEq] at hcap
    rw [← hcap.1]
    exact hne
  · intro hne hall
    rw [hcur, if_neg hne]
    exact joinComma_ne_empty d.currencies hne hall
  · intro hne hall
    rw [hlang, if_neg hne]
    exact joinComma_ne_empty d.languages hne hall

/-- Witness for the amended C3 on a fully populated response. -/
theorem C3_amended_required_fields_witness :
    tcDemo "France" = some "FRA" ∧ apFull "FRA" = Except.ok respFull ∧
    (fetch_country_data tcDemo tnDemo apFull "France").data = some recFull ∧
    ((∀ c cs, respFull.capital = some (c :: cs) → c ≠ "" →
        recFull.Capital ≠ "") ∧
     (respFull.currencies ≠ [] → (∀ k ∈ respFull.currencies, k ≠ "") →
        recFull.Currency ≠ "") ∧
     (respFull.languages ≠ [] → (∀ v ∈ respFull.languages, v ≠ "") →
        recFull.Language ≠ "") ∧
     recFull.Population = respFull.population ∧
     recFull.Area = respFull.area) :=
  ⟨rfl, rfl, rfl,
    C3_amended_required_fields tcDemo tnDemo apFull "France" "FRA" respFull
      recFull rfl rfl rfl⟩

/-- C5 counterexample: the claim says the neighbor-name list of a valid
record contains no duplicates.  A response whose border list repeats a code
produces the resolved name twice. -/
theorem C5_counterexample_duplicate_neighbors :
    (fetch_country_data tcDemo tnDemo apDupBorders "Lux").data =
      some recDupBorders ∧
    ¬ recDupBorders.NeighboringCountries.Nodup :=
  ⟨rfl, by decide⟩

/-- C5 amended: every border code that resolves contributes its resolved
name to the neighbor list and unresolvable codes contribute nothing; the
list has no duplicates provided the border-code list itself has none and
the back-resolver is injective, and no empty strings provided the
back-resolver never returns one. -/
theorem C5_amended_neighbor_roundtrip (tc tn : String → Option String)
    (ap : String → Except PyExc FactsResponse) (name code : String)
    (d : FactsResponse) (r : CountryData) (htc : tc name = some code)
    (hap : ap code = Except.ok d)
    (hr : (fetch_country_data tc tn ap name).data = some r) :
    (∀ c ∈ d.borders, ∀ n, tn c = some n → n ∈ r.NeighboringCountries) ∧
    (∀ n ∈ r.NeighboringCountries, ∃ c ∈ d.borders, tn c = some n) ∧
    (d.borders.Nodup → (∀ a b n, tn a = some n → tn b = some n → a = b) →
      r.NeighboringCountries.Nodup) ∧
    ((∀ c n, tn c = some n → n ≠ "") → "" ∉ r.NeighboringCountries) := by
  have hok := (fetch_country_data_ok_iff tc tn ap name code d htc hap r).mp hr
  have hnb := (extractRecord_ok_fields tn d r hok).2.2.2.2.2
  rw [hnb]
  refine ⟨?_, ?_, ?_, ?_⟩
  · intro c hc n hn
    exact List.mem_filterMap.mpr ⟨c, hc, hn⟩
  · intro n hn
    exact List.mem_filterMap.mp hn
  · intro hnd hinj
    exact hnd.filterMap (fun a a2 b hb hb2 =>
      hinj a a2 b (Option.mem_def.mp hb) (Option.mem_def.mp hb2))
  · intro hne hmem
    obtain ⟨c, _, hcn⟩ := List.mem_filterMap.mp hmem
    exact hne c "" hcn rfl

/-- Witness for the amended C5 on the fully populated response. -/
theorem C5_amended_neighbor_roundtrip_witness :
    tcDemo "France" = some "FRA" ∧ apFull "FRA" = Except.ok respFull ∧
    (fetch_country_data tcDemo tnDemo apFull "France").data = some recFull ∧
    ((∀ c ∈ respFull.borders, ∀ n, tnDemo c = some n →
        n ∈ recFull.NeighboringCountries) ∧
     (∀ n ∈ recFull.NeighboringCountries, ∃ c ∈ respFull.borders,
        tnDemo c = some n) ∧
     (respFull.borders.Nodup →
        (∀ a b n, tnDemo a = some n → tnDemo b = some n → a = b) →
        recFull.NeighboringCountries.Nodup) ∧
     ((∀ c n, tnDemo c = some n → n ≠ "") →
        "" ∉ recFull.NeighboringCountries)) :=
  ⟨rfl, rfl, rfl,
    C5_amended_neighbor_roundtrip tcDemo tnDemo apFull "France" "FRA"
      respFull recFull rfl rfl rfl⟩

/-- C6: the neighbor-population aggregator drops every failing neighbor
silently, gives each successfully fetched neighbor one `(name, population)`
row with the population defaulting to zero when absent, and returns `None`
when the input list is empty or every neighbor fails. -/
theorem C6_neighbor_aggregator_behavior (tc : String → Option String)
    (ap : String → Except PyExc FactsResponse) (neighbors : List String) :
    (neighbors = [] → create_neighbor_population_chart tc ap neighbors = none) ∧
    (∀ n ∈ neighbors, neighborRow tc ap n = none →
      ∀ t, create_neighbor_population_chart tc ap neighbors = some t →
        n ∉ t.map Prod.fst) ∧
    (∀ n ∈ neighbors, ∀ code d, tc n = some code → ap code = Except.ok d →
      ∀ t, create_neighbor_population_chart tc ap neighbors = some t →
        (n, d.population.getD 0) ∈ t) ∧
    ((∀ n ∈ neighbors, neighborRow tc ap n = none) →
      create_neighbor_population_chart tc ap neighbors = none) := by
  refine ⟨?_, ?_, ?_, create_chart_none_of_all_fail tc ap neighbors⟩
  · intro h
    subst h
    rfl
  · intro n hn hfail t ht hmem
    rw [create_chart_some tc ap neighbors t ht] at hmem
    obtain ⟨p, hp, hpeq⟩ := List.mem_map.mp hmem
    obtain ⟨a, _, hrow⟩ := List.mem_filterMap.mp hp
    have hfsta := neighborRow_fst tc ap a p hrow
    rw [hfsta.symm.trans hpeq] at hrow
    rw [hfail] at hrow
    cases hrow
  · intro n hn code d htc hapd t ht
    rw [create_chart_some tc ap neighbors t ht]
    refine List.mem_filterMap.mpr ⟨n, hn, ?_⟩
    simp [neighborRow, htc, hapd]

/-- Witness for C6 at a concrete resolver, API and neighbor list. -/
theorem C6_neighbor_aggregator_behavior_witness :
    (["Atlantis", "France", "Spain"] = ([] : List String) →
      create_neighbor_population_chart tcDemo apFull
        ["Atlantis", "France", "Spain"] = none) ∧
    (∀ n ∈ ["Atlantis", "France", "Spain"],
      neighborRow tcDemo apFull n = none →
      ∀ t, create_neighbor_population_chart tcDemo apFull
        ["Atlantis", "France", "Spain"] = some t → n ∉ t.map Prod.fst) ∧
    (∀ n ∈ ["Atlantis", "France", "Spain"], ∀ code d, tcDemo n = some code →
      apFull code = Except.ok d →
      ∀ t, create_neighbor_population_chart tcDemo apFull
        ["Atlantis", "France", "Spain"] = some t →
        (n, d.population.getD 0) ∈ t) ∧
    ((∀ n ∈ ["Atlantis", "France", "Spain"],
        neighborRow tcDemo apFull n = none) →
      create_neighbor_population_chart tcDemo apFull
        ["Atlantis", "France", "Spain"] = none) :=
  C6_neighbor_aggregator_behavior tcDemo apFull ["Atlantis", "France", "Spain"]

/-- C9: a present-but-empty `capital` list makes the whole fetch fail with
`None` (the subscript raises and the catch-all handler returns `None`),
while the `"N/A"` capital default applies exactly when the `capital` key is
entirely absent and the rest of the extraction succeeds. -/
theorem C9_empty_capital_list_fails (tc tn : String → Option String)
    (ap : String → Except PyExc FactsResponse) (name code : String)
    (d : FactsResponse) (htc : tc name = some code)
    (hap : ap code = Except.ok d) :
    (d.capital = some [] → (fetch_country_data tc tn ap name).data = none) ∧
    (d.capital = none → ∀ ll lat lon, d.latlng = some ll →
      ll[0]? = some lat → ll[1]? = some lon →
      ((fetch_country_data tc tn ap name).data.map CountryData.Capital) =
        some "N/A") := by
  constructor
  · intro hcap
    have he := extractRecord_capital_empty tn d hcap
    rw [fetch_country_data_extract_err tc tn ap name code d htc hap _ he]
  · intro hcap ll lat lon hll h0 h1
    have he := extractRecord_capital_none tn d hcap ll lat lon hll h0 h1
    have hdata := (fetch_country_data_ok_iff tc tn ap name code d htc hap _).mpr he
    rw [hdata]
    rfl

/-- Witness for C9 on a concrete response with an empty capital list. -/
theorem C9_empty_capital_list_fails_witness :
    tcDemo "France" = some "FRA" ∧
    apEmptyCapital "FRA" = Except.ok respEmptyCapital ∧
    ((respEmptyCapital.capital = some [] →
      (fetch_country_data tcDemo tnDemo apEmptyCapital "France").data = none) ∧
     (respEmptyCapital.capital = none → ∀ ll lat lon,
      respEmptyCapital.latlng = some ll → ll[0]? = some lat →
      ll[1]? = some lon →
      ((fetch_country_data tcDemo tnDemo apEmptyCapital "France").data.map
        CountryData.Capital) = some "N/A")) :=
  ⟨rfl, rfl,
    C9_empty_capital_list_fails tcDemo tnDemo apEmptyCapital "France" "FRA"
      respEmptyCapital rfl rfl⟩

end CountryInfo
